import Mathlib

/-
Shallow embedding of `TestImpactBuildTarget.h` (O3DE Test Impact Framework):
the `TestImpact::BuildTarget<ProductionTarget, TestTarget>` discriminated
union wrapper, its accessors, `operator==`, and its `AZStd::hash`
specialization.

Memory model: machine addresses are naturals, with `0` the value of the null
pointer; a `const K*` pointer is `Option` of the pointed-to object, `none`
standing for `nullptr`.  An externally owned target instance is identified by
the address of its common `Target` base subobject (`targetAddr`); distinct
live objects occupy disjoint storage, so distinct instances have distinct
`targetAddr`.  The `value` field stands for all of the instance's own data
members, so two distinct instances can be value-identical while having
different addresses.  The class template is instantiated at these two model
entity types.
-/

namespace TestImpact

/-- Enumeration to facilitate runtime determination of build target types
(the `BuildTargetType` enum of the header). -/
inductive BuildTargetType where
  | TestTarget
  | ProductionTarget
deriving DecidableEq, Repr

/-- Machine address of a `Target` base subobject; the null pointer is the
address value `0`. -/
abbrev TargetAddr := Nat

/-- Model of an externally owned `TestTarget` instance: `targetAddr` is the
address of its common `Target` base subobject (its identity); `value` stands
for all of its data members. -/
structure TestTargetInst where
  targetAddr : TargetAddr
  value : Nat
deriving DecidableEq, Repr

/-- Model of an externally owned `ProductionTarget` instance, a type distinct
from `TestTargetInst` as the template contract requires. -/
structure ProductionTargetInst where
  targetAddr : TargetAddr
  value : Nat
deriving DecidableEq, Repr

/-- The `BuildTarget` class: `m_target` is the member
`AZStd::variant<const TestTarget*, const ProductionTarget*>` (`Sum.inl` is
alternative 0, the test-target pointer) and `m_type` is the
`BuildTargetType` member. -/
structure BuildTarget where
  m_target : Sum (Option TestTargetInst) (Option ProductionTargetInst)
  m_type : BuildTargetType
deriving DecidableEq, Repr

/-- Constructor `BuildTarget(const TestTarget* testTarget)`: stores the
pointer in the variant and sets the tag to `TestTarget`. -/
def BuildTarget.ofTestTarget (testTarget : Option TestTargetInst) : BuildTarget :=
  { m_target := Sum.inl testTarget, m_type := BuildTargetType.TestTarget }

/-- Constructor `BuildTarget(const ProductionTarget* productionTarget)`:
stores the pointer in the variant and sets the tag to `ProductionTarget`. -/
def BuildTarget.ofProductionTarget (productionTarget : Option ProductionTargetInst) : BuildTarget :=
  { m_target := Sum.inr productionTarget, m_type := BuildTargetType.ProductionTarget }

/-- Member `Visit`: `AZStd::visit(visitor, m_target)` applies the visitor to
the actively held variant alternative.  A C++ generic visitor mutating
captured state is modelled by its two template instantiations — one per
variant alternative — each a transformer of the captured state `σ`; exactly
the branch for the active alternative runs. -/
def BuildTarget.Visit {σ : Type} (b : BuildTarget)
    (onTestTarget : Option TestTargetInst → σ → σ)
    (onProductionTarget : Option ProductionTargetInst → σ → σ)
    (s : σ) : σ :=
  match b.m_target with
  | Sum.inl testTarget => onTestTarget testTarget s
  | Sum.inr productionTarget => onProductionTarget productionTarget s

/-- Evaluation of `&(*target)` on a `const TestTarget*` followed by the
implicit conversion to `const Target*`: for a non-null pointer it is the
address of the `Target` base subobject; applied to the null pointer it
yields the null pointer value again (the observable behaviour of `&*` on a
pointer in the compiled code). -/
def testTargetView : Option TestTargetInst → Option TargetAddr
  | none => none
  | some t => some t.targetAddr

/-- Evaluation of `&(*target)` on a `const ProductionTarget*` followed by the
implicit conversion to `const Target*`. -/
def productionTargetView : Option ProductionTargetInst → Option TargetAddr
  | none => none
  | some p => some p.targetAddr

/-- Member `GetTarget`: `returnTarget` starts as `nullptr` and the visitor
instantiation for the active alternative overwrites it with `&(*target)`. -/
def BuildTarget.GetTarget (b : BuildTarget) : Option TargetAddr :=
  b.Visit
    (fun target _returnTarget => testTargetView target)
    (fun target _returnTarget => productionTargetView target)
    none

/-- Member `GetTestTarget`: `testTarget` starts as `nullptr`; the visitor
branch whose `if constexpr (IsTestTarget<...>)` holds assigns the held
pointer, the other branch leaves it untouched. -/
def BuildTarget.GetTestTarget (b : BuildTarget) : Option TestTargetInst :=
  b.Visit
    (fun target _testTarget => target)
    (fun _target testTarget => testTarget)
    none

/-- Member `GetProductionTarget`: symmetric to `GetTestTarget`, guarded by
`if constexpr (IsProductionTarget<...>)`. -/
def BuildTarget.GetProductionTarget (b : BuildTarget) : Option ProductionTargetInst :=
  b.Visit
    (fun _target productionTarget => productionTarget)
    (fun target _productionTarget => target)
    none

/-- Member `GetTargetType`: returns the `m_type` member. -/
def BuildTarget.GetTargetType (b : BuildTarget) : BuildTargetType :=
  b.m_type

/-- Free `operator==` on two `BuildTarget` of the same instantiation:
`lhs.GetTarget() == rhs.GetTarget()`, a pointer (identity) comparison of the
common `Target` views. -/
def BuildTarget.beq (lhs rhs : BuildTarget) : Bool :=
  lhs.GetTarget == rhs.GetTarget

/-- The `AZStd::hash<BuildTarget>` specialization:
`reinterpret_cast<size_t>(buildTarget.GetTarget())`, the integer value of
the common-view pointer, which is `0` exactly for the null pointer. -/
def BuildTarget.hashOf (buildTarget : BuildTarget) : Nat :=
  match buildTarget.GetTarget with
  | none => 0
  | some a => a

/-- The const member functions of the class interface. -/
inductive Accessor where
  | getTarget
  | getTestTarget
  | getProductionTarget
  | getTargetType
  | visit
deriving DecidableEq, Repr

/-- State of the object after a call to an accessor: every member function
of the class is `const` and writes neither `m_target` nor `m_type`, so each
call returns the object state unchanged. -/
def BuildTarget.afterAccessor (b : BuildTarget) : Accessor → BuildTarget
  | Accessor.getTarget => b
  | Accessor.getTestTarget => b
  | Accessor.getProductionTarget => b
  | Accessor.getTargetType => b
  | Accessor.visit => b

/-- A `BuildTarget` built by one of the two constructors from a valid
(non-null) externally owned instance, the only construction the documented
contract allows. -/
def BuildTarget.ValidlyConstructed (b : BuildTarget) : Prop :=
  (∃ t : TestTargetInst, b = BuildTarget.ofTestTarget (some t)) ∨
  (∃ p : ProductionTargetInst, b = BuildTarget.ofProductionTarget (some p))

/-- Unfolding of `GetTarget` on a test-constructed wrapper. -/
theorem getTarget_ofTestTarget (t : Option TestTargetInst) :
    (BuildTarget.ofTestTarget t).GetTarget = testTargetView t := rfl

/-- Unfolding of `GetTarget` on a production-constructed wrapper. -/
theorem getTarget_ofProductionTarget (p : Option ProductionTargetInst) :
    (BuildTarget.ofProductionTarget p).GetTarget = productionTargetView p := rfl

/-- Equality of wrappers coincides with equality of their common views. -/
theorem beq_true_iff_getTarget_eq (a b : BuildTarget) :
    BuildTarget.beq a b = true ↔ a.GetTarget = b.GetTarget := by
  simp [BuildTarget.beq]

/-- C1: for wrappers of the same instantiation, `a == b` holds iff the common
`Target` views returned by `GetTarget` refer to the identical underlying
object (identity comparison), and never merely because the referenced
targets are field-by-field value-identical: wrappers constructed from
distinct but value-identical instances are unequal. -/
theorem buildTarget_eq_iff_view_identity :
    (∀ a b : BuildTarget, BuildTarget.beq a b = true ↔ a.GetTarget = b.GetTarget) ∧
    (∀ t1 t2 : TestTargetInst, t1.targetAddr ≠ t2.targetAddr → t1.value = t2.value →
      BuildTarget.beq (BuildTarget.ofTestTarget (some t1))
        (BuildTarget.ofTestTarget (some t2)) = false) ∧
    (∀ p1 p2 : ProductionTargetInst, p1.targetAddr ≠ p2.targetAddr → p1.value = p2.value →
      BuildTarget.beq (BuildTarget.ofProductionTarget (some p1))
        (BuildTarget.ofProductionTarget (some p2)) = false) := by
  refine ⟨fun a b => beq_true_iff_getTarget_eq a b, ?_, ?_⟩
  · intro t1 t2 hne _
    simp [BuildTarget.beq, getTarget_ofTestTarget, testTargetView, hne]
  · intro p1 p2 hne _
    simp [BuildTarget.beq, getTarget_ofProductionTarget, productionTargetView, hne]

/-- Witness for C1: wrappers over two distinct test targets with identical
data members are unequal. -/
theorem buildTarget_eq_iff_view_identity_witness :
    BuildTarget.beq (BuildTarget.ofTestTarget (some ⟨1, 7⟩))
      (BuildTarget.ofTestTarget (some ⟨2, 7⟩)) = false :=
  buildTarget_eq_iff_view_identity.2.1 ⟨1, 7⟩ ⟨2, 7⟩ (by decide) rfl

/-- C2: equal wrappers hash equal — the hash is derived from the identity of
the common `Target` view, the same identity basis `operator==` compares. -/
theorem buildTarget_eq_implies_hash_eq (a b : BuildTarget)
    (h : BuildTarget.beq a b = true) :
    BuildTarget.hashOf a = BuildTarget.hashOf b := by
  have hv : a.GetTarget = b.GetTarget := by
    simpa [BuildTarget.beq] using h
  simp [BuildTarget.hashOf, hv]

/-- Witness for C2: two wrappers over the same test target instance hash
equal. -/
theorem buildTarget_eq_implies_hash_eq_witness :
    BuildTarget.hashOf (BuildTarget.ofTestTarget (some ⟨3, 5⟩)) =
      BuildTarget.hashOf (BuildTarget.ofTestTarget (some ⟨3, 5⟩)) :=
  buildTarget_eq_implies_hash_eq _ _ (by decide)

/-- C3: a wrapper constructed from a valid (non-null) test target `t` has the
`TestTarget` tag, `GetTestTarget` returns exactly `t`, `GetProductionTarget`
returns no value, and `GetTarget` returns the non-null common view of `t`. -/
theorem buildTarget_test_construction_postconditions (t : TestTargetInst) :
    (BuildTarget.ofTestTarget (some t)).GetTargetType = BuildTargetType.TestTarget ∧
    (BuildTarget.ofTestTarget (some t)).GetTestTarget = some t ∧
    (BuildTarget.ofTestTarget (some t)).GetProductionTarget = none ∧
    (BuildTarget.ofTestTarget (some t)).GetTarget = testTargetView (some t) ∧
    (BuildTarget.ofTestTarget (some t)).GetTarget ≠ none := by
  refine ⟨rfl, rfl, rfl, rfl, ?_⟩
  simp [getTarget_ofTestTarget, testTargetView]

/-- C4: a wrapper constructed from a valid (non-null) production target `p`
has the `ProductionTarget` tag, `GetProductionTarget` returns exactly `p`,
`GetTestTarget` returns no value, and `GetTarget` returns the non-null
common view of `p`. -/
theorem buildTarget_production_construction_postconditions (p : ProductionTargetInst) :
    (BuildTarget.ofProductionTarget (some p)).GetTargetType = BuildTargetType.ProductionTarget ∧
    (BuildTarget.ofProductionTarget (some p)).GetProductionTarget = some p ∧
    (BuildTarget.ofProductionTarget (some p)).GetTestTarget = none ∧
    (BuildTarget.ofProductionTarget (some p)).GetTarget = productionTargetView (some p) ∧
    (BuildTarget.ofProductionTarget (some p)).GetTarget ≠ none := by
  refine ⟨rfl, rfl, rfl, rfl, ?_⟩
  simp [getTarget_ofProductionTarget, productionTargetView]

/-- C5: for every wrapper built by one of the two constructors from a valid
(non-null) instance, exactly one of `GetTestTarget` and
`GetProductionTarget` returns a present value and the other returns no
value. -/
theorem buildTarget_exactly_one_narrowing (b : BuildTarget)
    (h : b.ValidlyConstructed) :
    (b.GetTestTarget.isSome = true ∧ b.GetProductionTarget = none) ∨
    (b.GetProductionTarget.isSome = true ∧ b.GetTestTarget = none) := by
  rcases h with ⟨t, rfl⟩ | ⟨p, rfl⟩
  · exact Or.inl ⟨rfl, rfl⟩
  · exact Or.inr ⟨rfl, rfl⟩

/-- Witness for C5 at a concrete test-target wrapper. -/
theorem buildTarget_exactly_one_narrowing_witness :
    ((BuildTarget.ofTestTarget (some ⟨4, 0⟩)).GetTestTarget.isSome = true ∧
      (BuildTarget.ofTestTarget (some ⟨4, 0⟩)).GetProductionTarget = none) ∨
    ((BuildTarget.ofTestTarget (some ⟨4, 0⟩)).GetProductionTarget.isSome = true ∧
      (BuildTarget.ofTestTarget (some ⟨4, 0⟩)).GetTestTarget = none) :=
  buildTarget_exactly_one_narrowing _ (Or.inl ⟨⟨4, 0⟩, rfl⟩)

/-- C6: for every wrapper constructed from a valid externally owned target,
`GetTarget` returns the common `Target` view of the actively held reference,
never null, and the call leaves the object state unchanged. -/
theorem buildTarget_getTarget_total (b : BuildTarget)
    (h : b.ValidlyConstructed) :
    b.GetTarget ≠ none ∧
    b.GetTarget = (match b.m_target with
      | Sum.inl t => testTargetView t
      | Sum.inr p => productionTargetView p) ∧
    b.afterAccessor Accessor.getTarget = b := by
  rcases h with ⟨t, rfl⟩ | ⟨p, rfl⟩
  · exact ⟨by simp [getTarget_ofTestTarget, testTargetView], rfl, rfl⟩
  · exact ⟨by simp [getTarget_ofProductionTarget, productionTargetView], rfl, rfl⟩

/-- Witness for C6 at a concrete production-target wrapper. -/
theorem buildTarget_getTarget_total_witness :
    (BuildTarget.ofProductionTarget (some ⟨6, 1⟩)).GetTarget ≠ none ∧
    (BuildTarget.ofProductionTarget (some ⟨6, 1⟩)).GetTarget =
      (match (BuildTarget.ofProductionTarget (some ⟨6, 1⟩)).m_target with
        | Sum.inl t => testTargetView t
        | Sum.inr p => productionTargetView p) ∧
    (BuildTarget.ofProductionTarget (some ⟨6, 1⟩)).afterAccessor Accessor.getTarget =
      BuildTarget.ofProductionTarget (some ⟨6, 1⟩) :=
  buildTarget_getTarget_total _ (Or.inr ⟨⟨6, 1⟩, rfl⟩)

/-- C7: `Visit` with a visitor whose test branch increments the test counter
and whose production branch increments the production counter, applied on a
wrapper holding a test target, increments exactly the test counter by one
and leaves the production counter unchanged — and symmetrically for a
wrapper holding a production target; dispatch is decided solely by the
stored variant alternative. -/
theorem buildTarget_visit_dispatch (t : TestTargetInst) (p : ProductionTargetInst)
    (testCount productionCount : Nat) :
    (BuildTarget.ofTestTarget (some t)).Visit
        (fun _ c => (c.1 + 1, c.2)) (fun _ c => (c.1, c.2 + 1))
        (testCount, productionCount) = (testCount + 1, productionCount) ∧
    (BuildTarget.ofProductionTarget (some p)).Visit
        (fun _ c => (c.1 + 1, c.2)) (fun _ c => (c.1, c.2 + 1))
        (testCount, productionCount) = (testCount, productionCount + 1) :=
  ⟨rfl, rfl⟩

/-- C8: both constructors establish a state whose `m_type` tag matches the
actively held variant alternative, the variant has no empty alternative, and
no accessor changes the object state after construction. -/
theorem buildTarget_tag_matches_and_immutable :
    (∀ t : Option TestTargetInst,
      (BuildTarget.ofTestTarget t).GetTargetType = BuildTargetType.TestTarget ∧
      (BuildTarget.ofTestTarget t).m_target = Sum.inl t) ∧
    (∀ p : Option ProductionTargetInst,
      (BuildTarget.ofProductionTarget p).GetTargetType = BuildTargetType.ProductionTarget ∧
      (BuildTarget.ofProductionTarget p).m_target = Sum.inr p) ∧
    (∀ b : BuildTarget,
      (∃ tp, b.m_target = Sum.inl tp) ∨ (∃ pp, b.m_target = Sum.inr pp)) ∧
    (∀ b : BuildTarget, ∀ a : Accessor, b.afterAccessor a = b) := by
  refine ⟨fun t => ⟨rfl, rfl⟩, fun p => ⟨rfl, rfl⟩, ?_, ?_⟩
  · intro b
    rcases hm : b.m_target with tp | pp
    · exact Or.inl ⟨tp, rfl⟩
    · exact Or.inr ⟨pp, rfl⟩
  · intro b a
    cases a <;> rfl

/-- C9: construction from a null pointer is accepted by either constructor;
the resulting wrapper returns null from both narrowing accessors, a null
common view from `GetTarget`, and still reports the kind of the constructor
used from `GetTargetType`. -/
theorem buildTarget_null_construction :
    ((BuildTarget.ofTestTarget none).GetTestTarget = none ∧
      (BuildTarget.ofTestTarget none).GetProductionTarget = none ∧
      (BuildTarget.ofTestTarget none).GetTarget = none ∧
      (BuildTarget.ofTestTarget none).GetTargetType = BuildTargetType.TestTarget) ∧
    ((BuildTarget.ofProductionTarget none).GetTestTarget = none ∧
      (BuildTarget.ofProductionTarget none).GetProductionTarget = none ∧
      (BuildTarget.ofProductionTarget none).GetTarget = none ∧
      (BuildTarget.ofProductionTarget none).GetTargetType = BuildTargetType.ProductionTarget) :=
  ⟨⟨rfl, rfl, rfl, rfl⟩, ⟨rfl, rfl, rfl, rfl⟩⟩

/-- C10: the hash is exactly the integer value of the common-view pointer, so
for wrappers whose view is never the integer-zero address (no live object
sits at the null address), `hash(a) = hash(b)` holds iff `a == b` holds; in
particular unequal wrappers hash to distinct values. -/
theorem buildTarget_hash_eq_iff_eq (a b : BuildTarget)
    (ha : a.GetTarget ≠ some 0) (hb : b.GetTarget ≠ some 0) :
    BuildTarget.hashOf a = BuildTarget.hashOf b ↔ BuildTarget.beq a b = true := by
  unfold BuildTarget.hashOf BuildTarget.beq
  rcases hga : a.GetTarget with _ | x <;> rcases hgb : b.GetTarget with _ | y
  · simp
  · have hy : y ≠ 0 := fun h => hb (by rw [hgb, h])
    simp [Ne.symm hy]
  · have hx : x ≠ 0 := fun h => ha (by rw [hga, h])
    simp [hx]
  · simp

/-- Witness for C10: a test wrapper and a production wrapper over targets at
distinct addresses have distinct hashes and are unequal. -/
theorem buildTarget_hash_eq_iff_eq_witness :
    BuildTarget.hashOf (BuildTarget.ofTestTarget (some ⟨5, 2⟩)) =
        BuildTarget.hashOf (BuildTarget.ofProductionTarget (some ⟨8, 2⟩)) ↔
      BuildTarget.beq (BuildTarget.ofTestTarget (some ⟨5, 2⟩))
        (BuildTarget.ofProductionTarget (some ⟨8, 2⟩)) = true :=
  buildTarget_hash_eq_iff_eq _ _ (by decide) (by decide)

end TestImpact
